import Mathlib

/-!
Shallow embedding of the Karoospikes Telegram webhook relay (`src/app.py`)
and proofs about its validator, formatter, forwarder and HTTP handlers.

Modelling conventions:
* JSON numbers are modelled as exact decimal values `mant * 10 ^ exp`
  (structure `PyNum`); Python `float` special values are the separate
  constructors of `PyFloat`.
* Python exceptions are modelled with `Except`; the broad `except` clauses
  of the handlers are the corresponding `match` catch-alls.
* The wall clock (`datetime.now()`) is an explicit parameter `now`, given as
  epoch seconds; `datetime.fromtimestamp` is rendered in fixed (UTC) time.
* `flask.Request.get_json` (Flask >= 2.1) raises `BadRequest` on a malformed
  body and `UnsupportedMediaType` on a missing JSON body; both are modelled
  by the `FlaskExc` error of the handler input.
-/

/-- Exact decimal number `mant * 10 ^ exp`, the value space of JSON number
literals and of Python float-string parsing in this model. -/
structure PyNum where
  mant : Int
  exp : Int
deriving DecidableEq, Repr

/-- JSON values as decoded by Python's `json` module. -/
inductive Json where
  | null
  | bool (b : Bool)
  | num (n : PyNum)
  | str (s : String)
  | arr (elts : List Json)
  | obj (entries : List (String × Json))

/-- Python exceptions that the webhook code can raise and catch. -/
inductive PyExc where
  | valueError (msg : String)
  | typeError (msg : String)
  | attributeError (msg : String)
deriving DecidableEq, Repr

/-- Exceptions raised by `flask.Request.get_json` before the handler body
sees the payload: `BadRequest` (malformed JSON) and `UnsupportedMediaType`
(absent JSON body / wrong content type, Flask >= 2.1). -/
inductive FlaskExc where
  | badRequest (msg : String)
  | unsupportedMediaType (msg : String)
deriving DecidableEq, Repr

/-- Python truthiness (`bool(x)`) of a decoded JSON value. -/
def pyTruthy : Json → Bool
  | .null => false
  | .bool b => b
  | .num n => !(n.mant == 0)
  | .str s => !s.data.isEmpty
  | .arr xs => !xs.isEmpty
  | .obj kvs => !kvs.isEmpty

/-- Decimal digits of `n`, most significant first; `fuel`-driven so that the
kernel can evaluate it. -/
def natReprAux : Nat → Nat → List Char
  | 0, _ => []
  | fuel + 1, n =>
    if n = 0 then [] else natReprAux fuel (n / 10) ++ [Nat.digitChar (n % 10)]

/-- Base-10 rendering of a natural number (Python `str` of a nonnegative int). -/
def natRepr (n : Nat) : String :=
  if n = 0 then "0" else String.mk (natReprAux (n + 1) n)

/-- Base-10 rendering of an integer (Python `str` of an int). -/
def intRepr (i : Int) : String :=
  (if i < 0 then "-" else "") ++ natRepr i.natAbs

/-- Left-pad with zeros to width `k`. -/
def padZeros (k : Nat) (s : String) : String :=
  String.mk (List.replicate (k - s.length) '0') ++ s

/-- Two-digit zero-padded rendering (strftime `%H`, `%M`, `%S`, `%m`, `%d`). -/
def pad2 (n : Nat) : String := padZeros 2 (natRepr n)

/-- Four-digit zero-padded rendering (isoformat year). -/
def pad4 (n : Nat) : String := padZeros 4 (natRepr n)

/-- Decimal rendering of a `PyNum` (Python `str` of the numeric value). -/
def pyNumRepr (n : PyNum) : String :=
  if 0 ≤ n.exp then intRepr (n.mant * (10 : Int) ^ n.exp.toNat)
  else
    let k := (-n.exp).toNat
    let a := n.mant.natAbs
    (if n.mant < 0 then "-" else "") ++
      natRepr (a / 10 ^ k) ++ "." ++ padZeros k (natRepr (a % 10 ^ k))

/-- Python `repr` of a decoded JSON value (used by `str` on containers). -/
def pyReprOf : Json → String
  | .null => "None"
  | .bool b => if b then "True" else "False"
  | .num n => pyNumRepr n
  | .str s => "'" ++ s ++ "'"
  | .arr xs => "[" ++ String.intercalate ", " (xs.attach.map fun x => pyReprOf x.1) ++ "]"
  | .obj kvs =>
      "\x7b" ++
        String.intercalate ", "
          (kvs.attach.map fun kv => "'" ++ kv.1.1 ++ "': " ++ pyReprOf kv.1.2) ++
      "\x7d"
decreasing_by
  · simp only [Json.arr.sizeOf_spec]
    have := List.sizeOf_lt_of_mem x.2
    omega
  · simp only [Json.obj.sizeOf_spec]
    have h1 := List.sizeOf_lt_of_mem kv.2
    have h2 : sizeOf kv.1.2 < sizeOf kv.1 := by
      obtain ⟨k, v⟩ := kv.1
      simp only [Prod.mk.sizeOf_spec]
      omega
    omega

/-- Python `str()` of a decoded JSON value: scalars directly, containers
through `repr` of their elements. -/
def pyStrOf (j : Json) : String :=
  match j with
  | .str s => s
  | .null => "None"
  | .bool b => if b then "True" else "False"
  | .num n => pyNumRepr n
  | j => pyReprOf j

/-- Python `str(list_of_str)` rendering, as used for the missing-fields
diagnostic `f'Missing required fields: {missing_fields}'`. -/
def pyListRepr (l : List String) : String :=
  "[" ++ String.intercalate ", " (l.map fun s => "'" ++ s ++ "'") ++ "]"

/-- Whitespace stripped by Python `str.strip()` (ASCII subset). -/
def pySpace (c : Char) : Bool :=
  c == ' ' || c == '\t' || c == '\n' || c == '\r' || c == '\x0b' || c == '\x0c'

/-- Python `str.strip()` on the character list. -/
def stripList (l : List Char) : List Char :=
  ((l.dropWhile pySpace).reverse.dropWhile pySpace).reverse

/-- Python `str.strip()`. -/
def pyStrip (s : String) : String := String.mk (stripList s.data)

/-- Python `float` values: finite decimal, infinities, nan. -/
inductive PyFloat where
  | finite (n : PyNum)
  | inf
  | ninf
  | nan
deriving DecidableEq, Repr

/-- The test `x <= 0` on a Python float (`nan <= 0` is false). -/
def pyLeZero : PyFloat → Bool
  | .finite n => decide (n.mant ≤ 0)
  | .inf => false
  | .ninf => true
  | .nan => false

/-- Value of the digit characters accumulated so far. -/
def digitsToNat (l : List Char) : Nat :=
  l.foldl (fun a c => a * 10 + (c.toNat - 48)) 0

/-- Consume a leading run of decimal digits, allowing single underscores
between digits (Python numeric literal lexing); returns the digits with
underscores removed and the unconsumed rest. -/
def grabDigitsAux : Nat → List Char → List Char × List Char
  | 0, cs => ([], cs)
  | _ + 1, [] => ([], [])
  | fuel + 1, c :: rest =>
    if c.isDigit then
      match rest with
      | '_' :: rest2 =>
        match rest2 with
        | d :: _ =>
          if d.isDigit then
            let (ds, r) := grabDigitsAux fuel rest2
            (c :: ds, r)
          else ([c], '_' :: rest2)
        | [] => ([c], ['_'])
      | _ =>
        let (ds, r) := grabDigitsAux fuel rest
        (c :: ds, r)
    else ([], c :: rest)

/-- Consume a leading digit run (see `grabDigitsAux`). -/
def grabDigits (cs : List Char) : List Char × List Char :=
  grabDigitsAux (cs.length + 1) cs

/-- Parse the part of a float literal after the optional sign: `inf`,
`infinity`, `nan` (case-insensitive) or a decimal mantissa with optional
fraction and exponent. Returns `none` when the text is not a valid Python
float literal. -/
def parseFloatBody (cs : List Char) (neg : Bool) : Option PyFloat :=
  let lower := cs.map Char.toLower
  if lower = "inf".data ∨ lower = "infinity".data then
    some (if neg then .ninf else .inf)
  else if lower = "nan".data then some .nan
  else
    let (ip, r1) := grabDigits cs
    let (fp, r2) :=
      match r1 with
      | '.' :: r => grabDigits r
      | _ => ([], r1)
    let hasDot := match r1 with | '.' :: _ => true | _ => false
    if ip.isEmpty ∧ (fp.isEmpty ∨ ¬hasDot) then none
    else
      let m : Nat := digitsToNat (ip ++ fp)
      let mkNum (e : Int) : PyFloat :=
        .finite ⟨if neg then -(m : Int) else (m : Int), e - fp.length⟩
      match r2 with
      | [] => some (mkNum 0)
      | c :: r =>
        if c = 'e' ∨ c = 'E' then
          let (esign, r') :=
            match r with
            | '+' :: t => (false, t)
            | '-' :: t => (true, t)
            | _ => (false, r)
          let (ed, r'') := grabDigits r'
          if ed.isEmpty ∨ ¬r''.isEmpty then none
          else some (mkNum (if esign then -(digitsToNat ed : Int) else (digitsToNat ed : Int)))
        else none

/-- Python `float(s)` on a string. -/
def parsePyFloat (s : String) : Except PyExc PyFloat :=
  match parseFloatBody' (stripList s.data) with
  | some f => .ok f
  | none => .error (.valueError ("could not convert string to float: '" ++ s ++ "'"))
where
  parseFloatBody' : List Char → Option PyFloat
    | '+' :: rest => parseFloatBody rest false
    | '-' :: rest => parseFloatBody rest true
    | cs => parseFloatBody cs false

/-- Python `float(x)` on a decoded JSON value. -/
def pyFloatOf : Json → Except PyExc PyFloat
  | .num n => .ok (.finite n)
  | .bool b => .ok (.finite ⟨if b then 1 else 0, 0⟩)
  | .str s => parsePyFloat s
  | .null => .error (.typeError "float() argument must be a string or a real number, not 'NoneType'")
  | .arr _ => .error (.typeError "float() argument must be a string or a real number, not 'list'")
  | .obj _ => .error (.typeError "float() argument must be a string or a real number, not 'dict'")

/-- Python `int(s)` on a string: optional sign and a digit run only. -/
def parsePyInt (s : String) : Except PyExc Int :=
  match go (stripList s.data) with
  | some i => .ok i
  | none => .error (.valueError ("invalid literal for int() with base 10: '" ++ s ++ "'"))
where
  body (cs : List Char) (neg : Bool) : Option Int :=
    let (ds, r) := grabDigits cs
    if ds.isEmpty ∨ ¬r.isEmpty then none
    else some (if neg then -(digitsToNat ds : Int) else (digitsToNat ds : Int))
  go : List Char → Option Int
    | '+' :: rest => body rest false
    | '-' :: rest => body rest true
    | cs => body cs false

/-- Truncation toward zero of a `PyNum` (Python `int(float)` / `int(int)`). -/
def truncVal (n : PyNum) : Int :=
  if 0 ≤ n.exp then n.mant * (10 : Int) ^ n.exp.toNat
  else n.mant.tdiv ((10 : Int) ^ (-n.exp).toNat)

/-- Floor of a `PyNum` (used for epoch-seconds of a timestamp). -/
def floorVal (n : PyNum) : Int :=
  if 0 ≤ n.exp then n.mant * (10 : Int) ^ n.exp.toNat
  else n.mant.fdiv ((10 : Int) ^ (-n.exp).toNat)

/-- Python `int(x)` on a decoded JSON value. -/
def pyIntOf : Json → Except PyExc Int
  | .num n => .ok (truncVal n)
  | .bool b => .ok (if b then 1 else 0)
  | .str s => parsePyInt s
  | .null => .error (.typeError "int() argument must be a string, a bytes-like object or a real number, not 'NoneType'")
  | .arr _ => .error (.typeError "int() argument must be a string, a bytes-like object or a real number, not 'list'")
  | .obj _ => .error (.typeError "int() argument must be a string, a bytes-like object or a real number, not 'dict'")

/-- Round `a / b` (with `b > 0`) to the nearest integer, ties to even —
the rounding used by Python's fixed-point float formatting. -/
def roundHalfEvenDiv (a : Int) (b : Nat) : Int :=
  let q := a.fdiv b
  let r := a.emod b
  if 2 * r < b then q
  else if (b : Int) < 2 * r then q + 1
  else if q % 2 = 0 then q else q + 1

/-- `value * 10^5` rounded half-to-even to an integer. -/
def roundScaled5 (n : PyNum) : Int :=
  let e5 := n.exp + 5
  if 0 ≤ e5 then n.mant * (10 : Int) ^ e5.toNat
  else roundHalfEvenDiv n.mant ((10 : Nat) ^ (-e5).toNat)

/-- The five fractional digits of `k` (taken mod `10^5`), zero padded. -/
def fracDigits5 (k : Nat) : String :=
  String.mk [Nat.digitChar (k / 10000 % 10), Nat.digitChar (k / 1000 % 10),
             Nat.digitChar (k / 100 % 10), Nat.digitChar (k / 10 % 10),
             Nat.digitChar (k % 10)]

/-- Python `f"{x:.5f}"` on a finite float value. -/
def formatFixed5 (n : PyNum) : String :=
  let s := roundScaled5 n
  let m := s.natAbs
  (if n.mant < 0 then "-" else "") ++ natRepr (m / 100000) ++ "." ++ fracDigits5 (m % 100000)

/-- Gregorian calendar date for a day count relative to 1970-01-01
(civil-from-days algorithm); year (possibly outside datetime's range),
month, day. -/
def civilFromDays (z0 : Int) : Int × Nat × Nat :=
  let z := z0 + 719468
  let era := z.fdiv 146097
  let doe := (z - era * 146097).toNat
  let yoe := (doe - doe / 1460 + doe / 36524 - doe / 146096) / 365
  let y : Int := era * 400 + yoe
  let doy := doe - (365 * yoe + yoe / 4 - yoe / 100)
  let mp := (5 * doy + 2) / 153
  let d := doy - (153 * mp + 2) / 5 + 1
  let m := if mp < 10 then mp + 3 else mp - 9
  ((if m ≤ 2 then y + 1 else y), m, d)

/-- Epoch seconds (floored) of a timestamp value. -/
def tsSecs (ts : PyNum) : Int := floorVal ts

/-- Seconds within the day of an epoch-seconds value. -/
def secondsOfDay (s : Int) : Nat := (s.emod 86400).toNat

/-- Calendar date and seconds-of-day of a timestamp (fixed UTC rendering). -/
def dtPartsOf (n : PyNum) : (Int × Nat × Nat) × Nat :=
  (civilFromDays ((tsSecs n).fdiv 86400), secondsOfDay (tsSecs n))

/-- strftime `"%H:%M:%S"` of a seconds-of-day value. -/
def timeStrOf (sod : Nat) : String :=
  pad2 (sod / 3600) ++ ":" ++ pad2 (sod % 3600 / 60) ++ ":" ++ pad2 (sod % 60)

/-- strftime `"%Y.%m.%d"` of a calendar date. -/
def dateStrOf (c : Int × Nat × Nat) : String :=
  natRepr c.1.toNat ++ "." ++ pad2 c.2.1 ++ "." ++ pad2 c.2.2

/-- `datetime.fromtimestamp(n)`: raises (`ValueError`/`OverflowError`)
when the timestamp falls outside datetime's year range 1..9999; otherwise
the calendar date and seconds-of-day. -/
def fromtimestampE (n : PyNum) : Except PyExc ((Int × Nat × Nat) × Nat) :=
  let c := dtPartsOf n
  if c.1.1 < 1 ∨ 9999 < c.1.1 then
    .error (.valueError ("year " ++ intRepr c.1.1 ++ " is out of range"))
  else .ok c

/-- The formatter's timestamp conversion (`src/app.py` lines 36-40):
`datetime.fromtimestamp(timestamp)` when the field is an `int`/`float`
(Python bools are ints) — which can raise for out-of-range values — and
`datetime.now()` otherwise. -/
def pyDatetimeOf (timestamp : Json) (now : PyNum) :
    Except PyExc ((Int × Nat × Nat) × Nat) :=
  match timestamp with
  | .num n => fromtimestampE n
  | .bool b => fromtimestampE ⟨if b then 1 else 0, 0⟩
  | _ => .ok (dtPartsOf now)

/-- `datetime.isoformat()` of a timestamp, to whole seconds. -/
def isoStr (ts : PyNum) : String :=
  let c := dtPartsOf ts
  pad4 c.1.1.toNat ++ "-" ++ pad2 c.1.2.1 ++ "-" ++ pad2 c.1.2.2 ++ "T" ++
    timeStrOf c.2

/-- Python type name of a decoded JSON value (for exception messages). -/
def jsonTypeName : Json → String
  | .null => "NoneType"
  | .bool _ => "bool"
  | .num _ => "float"
  | .str _ => "str"
  | .arr _ => "list"
  | .obj _ => "dict"

/-- `data.get(k, dflt)` on a decoded JSON value; raises `AttributeError`
when the value is not a dict. -/
def pyGetD (data : Json) (k : String) (dflt : Json) : Except PyExc Json :=
  match data with
  | .obj kvs => .ok ((List.lookup k kvs).getD dflt)
  | v => .error (.attributeError ("'" ++ jsonTypeName v ++ "' object has no attribute 'get'"))

/-- `isinstance(x, (int, float))` on a decoded JSON value (Python bools are
ints). -/
def isNumLikeJson : Json → Bool
  | .num _ => true
  | .bool _ => true
  | _ => false

/-- Numeric value of a number-like JSON value. -/
def numValOf : Json → PyNum
  | .num n => n
  | .bool b => ⟨if b then 1 else 0, 0⟩
  | _ => ⟨0, 0⟩

/-- The timestamp used by the formatter: the field value when it is
`int`/`float` (including bool), the current time otherwise. -/
def tsOf (timestamp : Json) (now : PyNum) : PyNum :=
  match timestamp with
  | .num n => n
  | .bool b => ⟨if b then 1 else 0, 0⟩
  | _ => now

/-- Python `signal_type == "BUY"` on the decoded field value. -/
def isBuy : Json → Bool
  | .str s => s == "BUY"
  | _ => false

/-- Python `f"{x:.5f}"` on a decoded JSON value: formats numbers and bools,
raises for strings and other types. -/
def formatDotF5 : Json → Except PyExc String
  | .num n => .ok (formatFixed5 n)
  | .bool b => .ok (formatFixed5 ⟨if b then 1 else 0, 0⟩)
  | .str _ => .error (.valueError "Unknown format code 'f' for object of type 'str'")
  | .null => .error (.typeError "unsupported format string passed to NoneType.__format__")
  | .arr _ => .error (.typeError "unsupported format string passed to list.__format__")
  | .obj _ => .error (.typeError "unsupported format string passed to dict.__format__")

/-- The `'-' * 35` separator line of the message template. -/
def dashesLine : String := String.mk (List.replicate 35 '-')

/-- Join message lines with newlines, exactly as the formatter's f-string
lays them out. -/
def joinNl : List String → String
  | [] => ""
  | [l] => l
  | l :: rest => l ++ "\n" ++ joinNl rest

/-- The lines of the message built by `format_signal` (`src/app.py` lines
24-72), in source order; the full message is their newline-join.
Evaluation mirrors the Python function: field lookups with defaults, the
timestamp conversion (which can raise for out-of-range numeric
timestamps), then the f-string interpolations, whose `:.5f` price specs
raise on non-numeric values. -/
def formatLines (data : Json) (now : PyNum) : Except PyExc (List String) := do
  let signal_type ← pyGetD data "signal_type" (.str "UNKNOWN")
  let symbol ← pyGetD data "symbol" (.str "UNKNOWN")
  let entry_price ← pyGetD data "entry_price" (.num ⟨0, 0⟩)
  let tp_price ← pyGetD data "tp_price" (.num ⟨0, 0⟩)
  let sl_price ← pyGetD data "sl_price" (.num ⟨0, 0⟩)
  let confidence ← pyGetD data "confidence" (.num ⟨0, 0⟩)
  let signal_category ← pyGetD data "signal_category" (.str "SIGNAL")
  let timestamp ← pyGetD data "timestamp" (.num now)
  let dt ← pyDatetimeOf timestamp now
  let time_str := timeStrOf dt.2
  let date_str := dateStrOf dt.1
  let signal_indicator := if isBuy signal_type then "BUY SIGNAL" else "SELL SIGNAL"
  let e5 ← formatDotF5 entry_price
  let t5 ← formatDotF5 tp_price
  let s5 ← formatDotF5 sl_price
  pure ["KAROOSPIKES PREMIUM SIGNALS",
        dashesLine,
        "",
        signal_indicator,
        "",
        pyStrOf signal_category,
        "",
        pyStrOf signal_type ++ " " ++ pyStrOf symbol,
        "",
        "Entry: " ++ e5,
        "Take Profit: " ++ t5,
        "Stop Loss: " ++ s5,
        "",
        "Confidence: " ++ pyStrOf confidence ++ "%",
        "Time: " ++ date_str ++ " " ++ time_str,
        "",
        "Professional Trading Signals",
        "Support: @KaroospikesSupport",
        "Risk Warning: Trading involves risk",
        "Powered by Karoospikes",
        "",
        dashesLine]

/-- `format_signal` (`src/app.py` lines 24-72): the formatted Telegram
message, or the exception the function raises. -/
def format_signal (data : Json) (now : PyNum) : Except PyExc String :=
  match formatLines data now with
  | .ok lns => .ok (joinNl lns)
  | .error e => .error e

/-- The single outbound HTTP POST built by `send_to_telegram`
(`src/app.py` lines 74-87). -/
structure TgRequest where
  url : String
  chat_id : Json
  text : String
  disable_web_page_preview : Bool
  parse_mode : Option String
  timeout : Nat

/-- Outcome of the single `requests.post` call, an input of the model:
timeout, transport error, or a response with a status code and a body that
either parses as JSON or does not. -/
inductive NetOutcome where
  | timeout
  | connError (msg : String)
  | response (status : Nat) (body : Except String Json)

/-- The request `send_to_telegram` posts: the Telegram `sendMessage` URL
built from the token, the JSON payload fields, and the 15-second timeout. -/
def tgRequest (bot_token message : String) (chat_id : Json) : TgRequest :=
  { url := "https://api.telegram.org/bot" ++ bot_token ++ "/sendMessage"
    chat_id := chat_id
    text := message
    disable_web_page_preview := true
    parse_mode := none
    timeout := 15 }

/-- `str()` of the `requests.exceptions.HTTPError` raised by
`raise_for_status` on a 4xx/5xx response. -/
def httpErrorText (status : Nat) : String :=
  if status < 500 then natRepr status ++ " Client Error"
  else natRepr status ++ " Server Error"

/-- `send_to_telegram` (`src/app.py` lines 74-110): issues one POST and
returns `(success, diagnostic)`; all failures of the attempt are caught
and mapped to a `False` outcome. The returned list is the trace of
requests issued (always exactly the one attempt). -/
def send_to_telegram (bot_token message : String) (chat_id : Json)
    (net : NetOutcome) : List TgRequest × (Bool × String) :=
  let req := tgRequest bot_token message chat_id
  match net with
  | .timeout => ([req], (false, "Request timeout"))
  | .connError m => ([req], (false, "Network error: " ++ m))
  | .response status body =>
    if 400 ≤ status then ([req], (false, "Network error: " ++ httpErrorText status))
    else
      match body with
      | .error m => ([req], (false, "Network error: " ++ m))
      | .ok (.obj kvs) =>
        if pyTruthy ((List.lookup "ok" kvs).getD .null) then ([req], (true, "Success"))
        else ([req], (false, pyStrOf ((List.lookup "description" kvs).getD
                                        (.str "Unknown Telegram error"))))
      | .ok j =>
        ([req], (false, "Unexpected error: '" ++ jsonTypeName j ++
                          "' object has no attribute 'get'"))

/-- The uniform error envelope `{'status': 'error', 'message': m}`. -/
def errResp (m : String) : Json :=
  .obj [("status", .str "error"), ("message", .str m)]

/-- The required fields of `/signal` (`src/app.py` line 127). -/
def requiredFields : List String :=
  ["signal_type", "symbol", "entry_price", "tp_price", "sl_price", "bot_token"]

/-- `field not in data or data[field] is None` (`src/app.py` line 128). -/
def isMissing (kvs : List (String × Json)) (f : String) : Bool :=
  match List.lookup f kvs with
  | none => true
  | some .null => true
  | some _ => false

/-- The list of missing required fields, in declaration order. -/
def missingFields (kvs : List (String × Json)) : List String :=
  requiredFields.filter (isMissing kvs)

/-- `str(data.get('bot_token', '')).strip()` (`src/app.py` line 138). -/
def tokenStr (kvs : List (String × Json)) : String :=
  pyStrip (pyStrOf ((List.lookup "bot_token" kvs).getD (.str "")))

/-- `not bot_token or len(bot_token) < 10 or ':' not in bot_token`
(`src/app.py` line 139). -/
def rejectToken (t : String) : Bool :=
  t.data.isEmpty || t.length < 10 || !(t.data.contains ':')

/-- `data.get(f, 0)` for the price fields. -/
def priceArg (kvs : List (String × Json)) (f : String) : Json :=
  (List.lookup f kvs).getD (.num ⟨0, 0⟩)

/-- The numeric-validation block (`src/app.py` lines 144-155): float the
three prices, int the confidence, then check positivity and range; any
`ValueError`/`TypeError` is the `.error` result. -/
def parsePrices (kvs : List (String × Json)) :
    Except PyExc (PyFloat × PyFloat × PyFloat × Int) := do
  let e ← pyFloatOf (priceArg kvs "entry_price")
  let tp ← pyFloatOf (priceArg kvs "tp_price")
  let sl ← pyFloatOf (priceArg kvs "sl_price")
  let conf ← pyIntOf ((List.lookup "confidence" kvs).getD (.num ⟨0, 0⟩))
  if pyLeZero e || pyLeZero tp || pyLeZero sl then
    throw (.valueError "Prices must be positive")
  else if conf < 0 || 100 < conf then
    throw (.valueError "Confidence must be between 0-100")
  else pure (e, tp, sl, conf)

/-- `data.get('channel_id', data.get('chat_id', '@default_channel'))`
(`src/app.py` line 164). -/
def chatDest (kvs : List (String × Json)) : Json :=
  (List.lookup "channel_id" kvs).getD
    ((List.lookup "chat_id" kvs).getD (.str "@default_channel"))

/-- The 200 success body of `/signal` (`src/app.py` lines 171-177). -/
def successResp (kvs : List (String × Json)) (conf : Int) : Json :=
  .obj [("status", .str "success"),
        ("message", .str "Signal sent to Telegram successfully"),
        ("signal_type", (List.lookup "signal_type" kvs).getD .null),
        ("symbol", (List.lookup "symbol" kvs).getD .null),
        ("confidence", .num ⟨conf, 0⟩)]

/-- `/signal` processing after the missing-fields and token checks passed:
numeric validation (its `ValueError`/`TypeError` handler returns 400),
formatting (whose exceptions fall through to the outer handler as 500),
then the Telegram send with 200/500 on success/failure. -/
def afterValidation (kvs : List (String × Json)) (now : PyNum)
    (net : NetOutcome) : (Nat × Json) × List TgRequest :=
  match parsePrices kvs with
  | .error (.valueError m) => ((400, errResp ("Invalid numeric data: " ++ m)), [])
  | .error (.typeError m) => ((400, errResp ("Invalid numeric data: " ++ m)), [])
  | .error _ => ((500, errResp "Internal server error"), [])
  | .ok (_, _, _, conf) =>
    match format_signal (.obj kvs) now with
    | .error _ => ((500, errResp "Internal server error"), [])
    | .ok message =>
      match send_to_telegram (tokenStr kvs) message (chatDest kvs) net with
      | (reqs, (true, _)) => ((200, successResp kvs conf), reqs)
      | (reqs, (false, emsg)) =>
        ((500, errResp ("Failed to send signal to Telegram: " ++ emsg)), reqs)

/-- `receive_signal`, the `POST /signal` handler (`src/app.py` lines
112-190). The input is the outcome of `request.get_json()`: a raised
Flask exception lands in the handler's final `except Exception` clause
(the `except json.JSONDecodeError` clause never matches it) and produces
the generic 500. The second component is the trace of outbound requests. -/
def receive_signal (g : Except FlaskExc Json) (now : PyNum)
    (net : NetOutcome) : (Nat × Json) × List TgRequest :=
  match g with
  | .error _ => ((500, errResp "Internal server error"), [])
  | .ok data =>
    if pyTruthy data then
      match data with
      | .obj kvs =>
        if missingFields kvs = [] then
          if rejectToken (tokenStr kvs) then
            ((400, errResp "Invalid bot token format"), [])
          else afterValidation kvs now net
        else
          ((400, errResp ("Missing required fields: " ++
                            pyListRepr (missingFields kvs))), [])
      | _ => ((500, errResp "Internal server error"), [])
    else ((400, errResp "No data received"), [])

/-- The validator of `/signal` accepts the payload: truthy dict, no
missing fields, well-formed token, numeric checks pass. -/
def signalAccepted (kvs : List (String × Json)) : Bool :=
  !kvs.isEmpty && (missingFields kvs).isEmpty && !rejectToken (tokenStr kvs) &&
    (match parsePrices kvs with | .ok _ => true | .error _ => false)

/-- Raw request-body cases at the Flask boundary. -/
inductive RawBody where
  | absent
  | malformed (err : String)
  | wellFormed (j : Json)

/-- `flask.Request.get_json()` (Flask >= 2.1): raises `UnsupportedMediaType`
without a JSON content type, `BadRequest` when the body fails to decode,
and otherwise returns the decoded value. -/
def flaskGetJson : RawBody → Except FlaskExc Json
  | .absent => .error (.unsupportedMediaType
      "Did not attempt to load JSON data because the request Content-Type was not 'application/json'.")
  | .malformed err => .error (.badRequest ("Failed to decode JSON object: " ++ err))
  | .wellFormed j => .ok j

/-- `str()` of the Flask exception (`werkzeug.exceptions.HTTPException`). -/
def flaskExcStr : FlaskExc → String
  | .badRequest m => "400 Bad Request: " ++ m
  | .unsupportedMediaType m => "415 Unsupported Media Type: " ++ m

/-- The 200 body of `POST /test` (`src/app.py` lines 224-229). -/
def testOkBody (received : Json) (now : PyNum) : Json :=
  .obj [("status", .str "success"),
        ("message", .str "Test signal received successfully"),
        ("received_data", received),
        ("timestamp", .str (isoStr now))]

/-- The `POST` branch of `test_endpoint` (`src/app.py` lines 220-234):
`request.get_json() or {}` echoed in a success envelope; an exception from
`get_json` is caught and answered with a 400 `Test failed` envelope. -/
def test_endpoint_post (g : Except FlaskExc Json) (now : PyNum) : Nat × Json :=
  match g with
  | .error e => (400, errResp ("Test failed: " ++ flaskExcStr e))
  | .ok data => (200, testOkBody (if pyTruthy data then data else .obj []) now)

/-- A line of the formatted message is a price line when it carries one of
the three price labels. -/
def strStartsWith (s p : String) : Bool := isPrefList p.data s.data
where
  isPrefList : List Char → List Char → Bool
    | [], _ => true
    | _ :: _, [] => false
    | b :: bs, a :: as => a == b && isPrefList bs as

/-- Price-line recogniser over message lines. -/
def isPriceLine (l : String) : Bool :=
  strStartsWith l "Entry: " || strStartsWith l "Take Profit: " ||
    strStartsWith l "Stop Loss: "

/-- Substring test (used to state that a diagnostic names a field). -/
def strContains (s t : String) : Bool := go s.data t.data
where
  go : List Char → List Char → Bool
    | [], sub => sub.isEmpty
    | c :: rest, sub => strStartsWith.isPrefList sub (c :: rest) || go rest sub

/-- `data.get(k, dflt)` under the dict representation. -/
def fieldD (kvs : List (String × Json)) (k : String) (dflt : Json) : Json :=
  (List.lookup k kvs).getD dflt

/-- The rendered entry price of the message. -/
def entryF5 (kvs : List (String × Json)) : String :=
  formatFixed5 (numValOf (priceArg kvs "entry_price"))

/-- The rendered take-profit price of the message. -/
def tpF5 (kvs : List (String × Json)) : String :=
  formatFixed5 (numValOf (priceArg kvs "tp_price"))

/-- The rendered stop-loss price of the message. -/
def slF5 (kvs : List (String × Json)) : String :=
  formatFixed5 (numValOf (priceArg kvs "sl_price"))

/-- The directional headline of the message. -/
def indicatorStr (kvs : List (String × Json)) : String :=
  if isBuy (fieldD kvs "signal_type" (.str "UNKNOWN")) then "BUY SIGNAL" else "SELL SIGNAL"

/-- The category line of the message. -/
def catLineStr (kvs : List (String × Json)) : String :=
  pyStrOf (fieldD kvs "signal_category" (.str "SIGNAL"))

/-- The direction-plus-symbol line of the message. -/
def dirLineStr (kvs : List (String × Json)) : String :=
  pyStrOf (fieldD kvs "signal_type" (.str "UNKNOWN")) ++ " " ++
    pyStrOf (fieldD kvs "symbol" (.str "UNKNOWN"))

/-- The confidence line of the message. -/
def confLineStr (kvs : List (String × Json)) : String :=
  "Confidence: " ++ pyStrOf (fieldD kvs "confidence" (.num ⟨0, 0⟩)) ++ "%"

/-- The date/time line of the message. -/
def timeLineStr (kvs : List (String × Json)) (now : PyNum) : String :=
  "Time: " ++ dateStrOf (dtPartsOf (tsOf (fieldD kvs "timestamp" (.num now)) now)).1 ++
    " " ++ timeStrOf (dtPartsOf (tsOf (fieldD kvs "timestamp" (.num now)) now)).2

/-- The timestamp conversion of the formatter succeeds on this payload
(the timestamp — or the clock, when the field is absent — denotes a date
within datetime's year range). -/
def tsRenderOk (kvs : List (String × Json)) (now : PyNum) : Bool :=
  match pyDatetimeOf (fieldD kvs "timestamp" (.num now)) now with
  | .ok _ => true
  | .error _ => false

/-- The 22 lines `format_signal` produces for a dict payload whose price
fields are number-like. -/
def mkMsgLines (kvs : List (String × Json)) (now : PyNum) : List String :=
  ["KAROOSPIKES PREMIUM SIGNALS",
   dashesLine,
   "",
   indicatorStr kvs,
   "",
   catLineStr kvs,
   "",
   dirLineStr kvs,
   "",
   "Entry: " ++ entryF5 kvs,
   "Take Profit: " ++ tpF5 kvs,
   "Stop Loss: " ++ slF5 kvs,
   "",
   confLineStr kvs,
   timeLineStr kvs now,
   "",
   "Professional Trading Signals",
   "Support: @KaroospikesSupport",
   "Risk Warning: Trading involves risk",
   "Powered by Karoospikes",
   "",
   dashesLine]

/-- A validator-accepted payload with a string `tp_price`, used to exhibit
an accepted signal for which no outbound request is issued. -/
def cexStringPrice2 : List (String × Json) :=
  [("signal_type", .str "BUY"), ("symbol", .str "USDJPY"),
   ("entry_price", .num ⟨1505, -1⟩), ("tp_price", .str "2.5"),
   ("sl_price", .num ⟨149, 0⟩), ("bot_token", .str "55555:TOKENTOKEN"),
   ("timestamp", .num ⟨1650000000, 0⟩)]

/-- A fully well-typed accepted payload (all prices JSON numbers). -/
def okPayload1 : List (String × Json) :=
  [("signal_type", .str "BUY"), ("symbol", .str "EURUSD"),
   ("entry_price", .num ⟨2, 0⟩), ("tp_price", .num ⟨3, 0⟩),
   ("sl_price", .num ⟨1, 0⟩), ("bot_token", .str "123456:ABCDEF"),
   ("timestamp", .num ⟨1700000000, 0⟩)]

/-- Another accepted all-numeric payload (different symbol/destination). -/
def okPayload2 : List (String × Json) :=
  [("signal_type", .str "SELL"), ("symbol", .str "XAUUSD"),
   ("entry_price", .num ⟨19501, -1⟩), ("tp_price", .num ⟨1940, 0⟩),
   ("sl_price", .num ⟨1960, 0⟩), ("bot_token", .str "777777:GOLDBOT"),
   ("chat_id", .str "@gold_channel"), ("timestamp", .num ⟨1710000000, 0⟩)]

/-- Payload with a too-short bot token. -/
def shortTokenPayload : List (String × Json) :=
  [("signal_type", .str "BUY"), ("symbol", .str "EURUSD"),
   ("entry_price", .num ⟨2, 0⟩), ("tp_price", .num ⟨3, 0⟩),
   ("sl_price", .num ⟨1, 0⟩), ("bot_token", .str "abc:12")]

/-- Payload with all six required keys present but `sl_price` bound to null. -/
def nullFieldPayload : List (String × Json) :=
  [("signal_type", .str "SELL"), ("symbol", .str "GBPUSD"),
   ("entry_price", .num ⟨15, -1⟩), ("tp_price", .num ⟨14, -1⟩),
   ("sl_price", .null), ("bot_token", .str "424242:HELLO")]

/-- Payload carrying only a symbol (five required fields missing). -/
def onlySymbolPayload : List (String × Json) := [("symbol", .str "EURUSD")]

@[simp] theorem pyExcBind_ok {α β : Type} (a : α) (f : α → Except PyExc β) :
    (bind (Except.ok a) f : Except PyExc β) = f a := rfl

@[simp] theorem pyExcPure {α : Type} (a : α) :
    (pure a : Except PyExc α) = Except.ok a := rfl

@[simp] theorem pyGetD_obj (kvs : List (String × Json)) (k : String) (d : Json) :
    pyGetD (.obj kvs) k d = .ok (fieldD kvs k d) := rfl

theorem isPrefList_self_append (p r : List Char) :
    strStartsWith.isPrefList p (p ++ r) = true := by
  induction p with
  | nil => rfl
  | cons a t ih => simp [strStartsWith.isPrefList, ih]

theorem strStartsWith_here (p x : String) : strStartsWith (p ++ x) p = true := by
  unfold strStartsWith
  rw [String.data_append]
  exact isPrefList_self_append p.data x.data

theorem isPriceLine_conf (x : String) : isPriceLine ("Confidence: " ++ x) = false := rfl

theorem isPriceLine_time (x : String) : isPriceLine ("Time: " ++ x) = false := rfl

theorem stripList_mem (l : List Char) : ∀ c ∈ stripList l, c ∈ l := by
  intro c hc
  unfold stripList at hc
  rw [List.mem_reverse] at hc
  have h1 := (List.dropWhile_sublist pySpace).mem hc
  rw [List.mem_reverse] at h1
  exact (List.dropWhile_sublist pySpace).mem h1

theorem stripList_length_le (l : List Char) : (stripList l).length ≤ l.length := by
  unfold stripList
  rw [List.length_reverse]
  calc ((l.dropWhile pySpace).reverse.dropWhile pySpace).length
      ≤ (l.dropWhile pySpace).reverse.length := (List.dropWhile_sublist pySpace).length_le
    _ = (l.dropWhile pySpace).length := List.length_reverse _
    _ ≤ l.length := (List.dropWhile_sublist pySpace).length_le

theorem pyStrip_length_le (s : String) : (pyStrip s).length ≤ s.length :=
  stripList_length_le s.data

theorem pyStrip_mem (s : String) : ∀ c ∈ (pyStrip s).data, c ∈ s.data :=
  stripList_mem s.data

theorem lookup_ne_nil {α : Type} (k : String) (kvs : List (String × α)) (v : α)
    (h : List.lookup k kvs = some v) : kvs ≠ [] := by
  intro he
  subst he
  simp [List.lookup] at h

theorem pyTruthy_obj (kvs : List (String × Json)) (h : kvs ≠ []) :
    pyTruthy (.obj kvs) = true := by
  cases kvs with
  | nil => exact absurd rfl h
  | cons a t => rfl

theorem receive_missing_case (kvs : List (String × Json)) (now : PyNum)
    (net : NetOutcome) (hne : kvs ≠ []) (hm : missingFields kvs ≠ []) :
    receive_signal (.ok (.obj kvs)) now net =
      ((400, errResp ("Missing required fields: " ++ pyListRepr (missingFields kvs))), []) := by
  simp [receive_signal, pyTruthy_obj kvs hne, hm]

theorem receive_badtoken_case (kvs : List (String × Json)) (now : PyNum)
    (net : NetOutcome) (hne : kvs ≠ []) (hm : missingFields kvs = [])
    (htok : rejectToken (tokenStr kvs) = true) :
    receive_signal (.ok (.obj kvs)) now net =
      ((400, errResp "Invalid bot token format"), []) := by
  simp [receive_signal, pyTruthy_obj kvs hne, hm, htok]

theorem receive_validated_case (kvs : List (String × Json)) (now : PyNum)
    (net : NetOutcome) (hne : kvs ≠ []) (hm : missingFields kvs = [])
    (htok : rejectToken (tokenStr kvs) = false) :
    receive_signal (.ok (.obj kvs)) now net = afterValidation kvs now net := by
  simp [receive_signal, pyTruthy_obj kvs hne, hm, htok]

theorem signalAccepted_parts (kvs : List (String × Json))
    (h : signalAccepted kvs = true) :
    kvs ≠ [] ∧ missingFields kvs = [] ∧ rejectToken (tokenStr kvs) = false ∧
      ∃ r, parsePrices kvs = .ok r := by
  simp only [signalAccepted, Bool.and_eq_true, Bool.not_eq_true'] at h
  obtain ⟨⟨⟨h1, h2⟩, h3⟩, h4⟩ := h
  refine ⟨?_, ?_, h3, ?_⟩
  · intro he; subst he; simp at h1
  · cases hmf : missingFields kvs with
    | nil => rfl
    | cons a t => rw [hmf] at h2; simp at h2
  · cases hp : parsePrices kvs with
    | ok r => exact ⟨r, rfl⟩
    | error e => rw [hp] at h4; simp at h4

theorem formatDotF5_numlike (v : Json) (h : isNumLikeJson v = true) :
    formatDotF5 v = .ok (formatFixed5 (numValOf v)) := by
  cases v with
  | num n => rfl
  | bool b => rfl
  | null => simp [isNumLikeJson] at h
  | str s => simp [isNumLikeJson] at h
  | arr xs => simp [isNumLikeJson] at h
  | obj kvs => simp [isNumLikeJson] at h

theorem fromtimestampE_ok_val (n : PyNum) (c : (Int × Nat × Nat) × Nat)
    (h : fromtimestampE n = .ok c) : c = dtPartsOf n := by
  simp only [fromtimestampE] at h
  split at h
  · simp at h
  · exact (Except.ok.inj h).symm

theorem pyDatetimeOf_ok_val (t : Json) (now : PyNum)
    (c : (Int × Nat × Nat) × Nat) (h : pyDatetimeOf t now = .ok c) :
    c = dtPartsOf (tsOf t now) := by
  cases t with
  | num n => exact fromtimestampE_ok_val n c h
  | bool b => exact fromtimestampE_ok_val ⟨if b then 1 else 0, 0⟩ c h
  | null => rw [← Except.ok.inj h]; rfl
  | str s => rw [← Except.ok.inj h]; rfl
  | arr xs => rw [← Except.ok.inj h]; rfl
  | obj entries => rw [← Except.ok.inj h]; rfl

theorem tsRenderOk_eq (kvs : List (String × Json)) (now : PyNum)
    (hts : tsRenderOk kvs now = true) :
    pyDatetimeOf (fieldD kvs "timestamp" (.num now)) now =
      .ok (dtPartsOf (tsOf (fieldD kvs "timestamp" (.num now)) now)) := by
  unfold tsRenderOk at hts
  cases hd : pyDatetimeOf (fieldD kvs "timestamp" (.num now)) now with
  | error e => rw [hd] at hts; simp at hts
  | ok c => rw [pyDatetimeOf_ok_val _ now c hd]

theorem formatLines_numlike (kvs : List (String × Json)) (now : PyNum)
    (hts : tsRenderOk kvs now = true)
    (he : isNumLikeJson (priceArg kvs "entry_price") = true)
    (ht : isNumLikeJson (priceArg kvs "tp_price") = true)
    (hs : isNumLikeJson (priceArg kvs "sl_price") = true) :
    formatLines (.obj kvs) now = .ok (mkMsgLines kvs now) := by
  have he' : isNumLikeJson (fieldD kvs "entry_price" (.num ⟨0, 0⟩)) = true := he
  have ht' : isNumLikeJson (fieldD kvs "tp_price" (.num ⟨0, 0⟩)) = true := ht
  have hs' : isNumLikeJson (fieldD kvs "sl_price" (.num ⟨0, 0⟩)) = true := hs
  unfold formatLines
  simp only [pyGetD_obj, pyExcBind_ok, tsRenderOk_eq kvs now hts,
    formatDotF5_numlike _ he', formatDotF5_numlike _ ht',
    formatDotF5_numlike _ hs', pyExcPure]
  rfl

theorem format_signal_numlike (kvs : List (String × Json)) (now : PyNum)
    (hts : tsRenderOk kvs now = true)
    (he : isNumLikeJson (priceArg kvs "entry_price") = true)
    (ht : isNumLikeJson (priceArg kvs "tp_price") = true)
    (hs : isNumLikeJson (priceArg kvs "sl_price") = true) :
    format_signal (.obj kvs) now = .ok (joinNl (mkMsgLines kvs now)) := by
  unfold format_signal
  rw [formatLines_numlike kvs now hts he ht hs]

theorem send_requests (bt msg : String) (c : Json) (net : NetOutcome) :
    (send_to_telegram bt msg c net).1 = [tgRequest bt msg c] := by
  cases net with
  | timeout => rfl
  | connError m => rfl
  | response st body =>
    simp only [send_to_telegram]
    repeat' split
    all_goals rfl

theorem receive_accepted_requests (kvs : List (String × Json)) (now : PyNum)
    (net : NetOutcome) (hacc : signalAccepted kvs = true)
    (hts : tsRenderOk kvs now = true)
    (he : isNumLikeJson (priceArg kvs "entry_price") = true)
    (ht : isNumLikeJson (priceArg kvs "tp_price") = true)
    (hs : isNumLikeJson (priceArg kvs "sl_price") = true) :
    (receive_signal (.ok (.obj kvs)) now net).2 =
      [tgRequest (tokenStr kvs) (joinNl (mkMsgLines kvs now)) (chatDest kvs)] := by
  obtain ⟨hne, hm, htok, r, hpp⟩ := signalAccepted_parts kvs hacc
  rw [receive_validated_case kvs now net hne hm htok]
  unfold afterValidation
  rw [hpp, format_signal_numlike kvs now hts he ht hs]
  have hreq := send_requests (tokenStr kvs)
    (joinNl (mkMsgLines kvs now)) (chatDest kvs) net
  obtain ⟨_, _, _, conf⟩ := r
  rcases hsd : send_to_telegram (tokenStr kvs)
      (joinNl (mkMsgLines kvs now)) (chatDest kvs) net with ⟨reqs, ok, m⟩
  rw [hsd] at hreq
  cases ok <;> simp [hsd] <;> exact hreq

theorem rejectToken_short (t : String) (h : t.length < 10) : rejectToken t = true := by
  simp [rejectToken, h]

theorem rejectToken_nocolon (t : String) (h : ':' ∉ t.data) : rejectToken t = true := by
  simp [rejectToken, h]

theorem tokenStr_of_str (kvs : List (String × Json)) (s : String)
    (h : List.lookup "bot_token" kvs = some (.str s)) : tokenStr kvs = pyStrip s := by
  simp [tokenStr, h, pyStrOf]

/-- Claim C2 (code bug): a malformed or absent JSON body makes Flask's
`get_json` raise an HTTP exception that the handler's generic
`except Exception` clause converts to a 500 `Internal server error`; the
`except json.JSONDecodeError` clause that would return the intended 400
`Invalid JSON format` never matches. -/
theorem claim_C2_code_bug (now : PyNum) (net : NetOutcome) (err : String) :
    receive_signal (flaskGetJson (.malformed err)) now net =
      ((500, errResp "Internal server error"), []) ∧
    receive_signal (flaskGetJson .absent) now net =
      ((500, errResp "Internal server error"), []) :=
  ⟨rfl, rfl⟩

/-- Claim C3, counterexample: the decoded payload `{}` is missing all six
required fields, yet the response message is `No data received`, which
does not name the missing `sl_price` field. -/
theorem claim_C3_counterexample :
    receive_signal (.ok (.obj [])) ⟨0, 0⟩ .timeout =
      ((400, errResp "No data received"), []) ∧
    isMissing [] "sl_price" = true ∧
    strContains "No data received" "sl_price" = false :=
  ⟨rfl, rfl, by decide⟩

/-- Claim C3 (amended): for every decoded payload that is a non-empty JSON
object with one or more of the six required fields missing, the response
is a 400 whose message renders the full list of missing fields; every
missing required field is in that list. -/
theorem claim_C3_amended (kvs : List (String × Json)) (now : PyNum)
    (net : NetOutcome) (hne : kvs ≠ []) (hmiss : missingFields kvs ≠ []) :
    receive_signal (.ok (.obj kvs)) now net =
      ((400, errResp ("Missing required fields: " ++
        pyListRepr (missingFields kvs))), []) ∧
    ∀ f, f ∈ requiredFields → isMissing kvs f = true → f ∈ missingFields kvs :=
  ⟨receive_missing_case kvs now net hne hmiss,
   fun _ hf hp => List.mem_filter.mpr ⟨hf, hp⟩⟩

/-- Claim C3, witness: the amended theorem applied to a payload carrying
only a symbol; the 400 message lists the five missing fields, `sl_price`
among them. -/
theorem claim_C3_witness :
    missingFields onlySymbolPayload ≠ [] ∧
    receive_signal (.ok (.obj onlySymbolPayload)) ⟨0, 0⟩ .timeout =
      ((400, errResp ("Missing required fields: " ++
        pyListRepr (missingFields onlySymbolPayload))), []) ∧
    "sl_price" ∈ missingFields onlySymbolPayload := by
  have h := claim_C3_amended onlySymbolPayload ⟨0, 0⟩ .timeout
    (by intro he; simp [onlySymbolPayload] at he) (by decide)
  exact ⟨by decide, h.1, h.2 "sl_price" (by decide) (by decide)⟩

/-- Claim C4, counterexample: a 200 response whose `ok` field is the JSON
number `1` — a value that is not `true` — is treated as success by the
forwarder (`result.get('ok')` tests Python truthiness, not equality with
`True`), not as the failure the claim requires. -/
theorem claim_C4_counterexample :
    (send_to_telegram "123456:ABCDEF" "msg" (.str "@chan")
      (.response 200 (.ok (.obj [("ok", .num ⟨1, 0⟩)])))).2 = (true, "Success") ∧
    Json.num ⟨1, 0⟩ ≠ Json.bool true :=
  ⟨rfl, fun h => Json.noConfusion h⟩

/-- Claim C4 (amended): the forwarder makes exactly one attempt (the
request trace is the singleton request) and returns a failure outcome with
a diagnostic string — never an uncaught fault — when the call times out,
when it raises a transport error, and when the remote API responds with a
JSON object whose `ok` field is absent or falsy; an `ok` field that is
truthy but not `true` (such as the number 1) is treated as success. -/
theorem claim_C4_amended (bt msg : String) (chat : Json) (net : NetOutcome) :
    (send_to_telegram bt msg chat net).1 = [tgRequest bt msg chat] ∧
    (net = .timeout →
      (send_to_telegram bt msg chat net).2 = (false, "Request timeout")) ∧
    (∀ s, net = .connError s →
      (send_to_telegram bt msg chat net).2 = (false, "Network error: " ++ s)) ∧
    (∀ st kvs, net = .response st (.ok (.obj kvs)) →
      pyTruthy ((List.lookup "ok" kvs).getD .null) = false →
      (send_to_telegram bt msg chat net).2.1 = false) := by
  refine ⟨send_requests bt msg chat net, ?_, ?_, ?_⟩
  · intro h; subst h; rfl
  · intro s h; subst h; rfl
  · intro st kvs h hok
    subst h
    simp only [send_to_telegram]
    split
    · rfl
    · simp [hok]

/-- Claim C4, witness: the amended theorem applied to a timed-out attempt. -/
theorem claim_C4_witness :
    (send_to_telegram "token:ABCDEFG" "hello" (.str "@chan") .timeout).2 =
      (false, "Request timeout") :=
  (claim_C4_amended "token:ABCDEFG" "hello" (.str "@chan") .timeout).2.1 rfl

/-- Claim C5: a payload whose `bot_token` is a string shorter than 10
characters or lacking a `:` is rejected with a 400 error envelope
(stripping whitespace cannot lengthen the token or introduce a colon, and
every earlier rejection path is also a 400 error envelope). -/
theorem claim_C5 (kvs : List (String × Json)) (now : PyNum) (net : NetOutcome)
    (s : String) (hv : List.lookup "bot_token" kvs = some (.str s))
    (hbad : s.length < 10 ∨ ':' ∉ s.data) :
    (receive_signal (.ok (.obj kvs)) now net).1.1 = 400 ∧
    ∃ m, (receive_signal (.ok (.obj kvs)) now net).1.2 = errResp m := by
  have hne : kvs ≠ [] := lookup_ne_nil _ kvs _ hv
  by_cases hm : missingFields kvs = []
  · have htok : rejectToken (tokenStr kvs) = true := by
      rw [tokenStr_of_str kvs s hv]
      rcases hbad with h | h
      · exact rejectToken_short _ (lt_of_le_of_lt (pyStrip_length_le s) h)
      · exact rejectToken_nocolon _ (fun hc => h (pyStrip_mem s ':' hc))
    rw [receive_badtoken_case kvs now net hne hm htok]
    exact ⟨rfl, ⟨_, rfl⟩⟩
  · rw [receive_missing_case kvs now net hne hm]
    exact ⟨rfl, ⟨_, rfl⟩⟩

/-- Claim C5, witness: the theorem applied to a payload with the 6-character
token `abc:12`. -/
theorem claim_C5_witness :
    List.lookup "bot_token" shortTokenPayload = some (Json.str "abc:12") ∧
    "abc:12".length < 10 ∧
    (receive_signal (.ok (.obj shortTokenPayload)) ⟨0, 0⟩ .timeout).1.1 = 400 := by
  have h := claim_C5 shortTokenPayload ⟨0, 0⟩ .timeout "abc:12" rfl
    (Or.inl (by decide))
  exact ⟨rfl, by decide, h.1⟩

/-- Claim C7, counterexample: the payload `cexStringPrice2` is accepted by
the Validator, yet no outbound request at all is issued (the request trace
is empty), because the Formatter raises on its string-valued `tp_price`
before `send_to_telegram` runs. -/
theorem claim_C7_counterexample :
    signalAccepted cexStringPrice2 = true ∧
    (receive_signal (.ok (.obj cexStringPrice2)) ⟨0, 0⟩ .timeout).2 = [] :=
  ⟨by decide, rfl⟩

/-- Claim C7 (amended): for every accepted signal whose price fields are
JSON numbers or booleans and whose timestamp denotes a date within
datetime's year range (so formatting succeeds), the handler issues exactly
one HTTP POST: to the Telegram `sendMessage` URL built from the token,
with a 15-second timeout, plain-text mode, link previews disabled, and the
formatted message as `text`. -/
theorem claim_C7_amended (kvs : List (String × Json)) (now : PyNum)
    (net : NetOutcome) (hacc : signalAccepted kvs = true)
    (hts : tsRenderOk kvs now = true)
    (he : isNumLikeJson (priceArg kvs "entry_price") = true)
    (ht : isNumLikeJson (priceArg kvs "tp_price") = true)
    (hs : isNumLikeJson (priceArg kvs "sl_price") = true) :
    ∃ msg, format_signal (.obj kvs) now = .ok msg ∧
      (receive_signal (.ok (.obj kvs)) now net).2 =
        [{ url := "https://api.telegram.org/bot" ++ tokenStr kvs ++ "/sendMessage",
           chat_id := chatDest kvs, text := msg,
           disable_web_page_preview := true, parse_mode := none, timeout := 15 }] := by
  refine ⟨joinNl (mkMsgLines kvs now),
    format_signal_numlike kvs now hts he ht hs, ?_⟩
  rw [receive_accepted_requests kvs now net hacc hts he ht hs]
  rfl

/-- Claim C7, witness: the amended theorem applied to the concrete accepted
payload `okPayload2`. -/
theorem claim_C7_witness :
    signalAccepted okPayload2 = true ∧
    tsRenderOk okPayload2 ⟨1710000000, 0⟩ = true ∧
    ∃ msg, format_signal (.obj okPayload2) ⟨1710000000, 0⟩ = .ok msg ∧
      (receive_signal (.ok (.obj okPayload2)) ⟨1710000000, 0⟩ .timeout).2 =
        [{ url := "https://api.telegram.org/bot" ++ tokenStr okPayload2 ++
             "/sendMessage",
           chat_id := chatDest okPayload2, text := msg,
           disable_web_page_preview := true, parse_mode := none, timeout := 15 }] :=
  ⟨by decide, by decide, claim_C7_amended okPayload2 ⟨1710000000, 0⟩ .timeout
    (by decide) (by decide) (by decide) (by decide) (by decide)⟩

/-- Claim C8, counterexample: a malformed `POST /test` body makes
`get_json` raise; the handler's `except` answers with a 400 error
envelope (`Test failed: ...`), not with the claimed success echo of `{}`. -/
theorem claim_C8_counterexample :
    test_endpoint_post
        (flaskGetJson (.malformed "Expecting value: line 1 column 1 (char 0)"))
        ⟨0, 0⟩ =
      (400, errResp ("Test failed: 400 Bad Request: Failed to decode JSON object: Expecting value: line 1 column 1 (char 0)")) ∧
    (test_endpoint_post
        (flaskGetJson (.malformed "Expecting value: line 1 column 1 (char 0)"))
        ⟨0, 0⟩).1 ≠ 200 :=
  ⟨rfl, by decide⟩

/-- Claim C8 (amended): `POST /test` echoes the decoded body in a success
envelope when decoding yields a value (a falsy value is replaced by `{}`);
an absent or malformed body, whose decoding raises, is answered with a 400
`Test failed` error envelope. -/
theorem claim_C8_amended (g : Except FlaskExc Json) (now : PyNum) :
    (∀ j, g = .ok j →
      test_endpoint_post g now =
        (200, testOkBody (if pyTruthy j then j else .obj []) now)) ∧
    (∀ e, g = .error e →
      test_endpoint_post g now = (400, errResp ("Test failed: " ++ flaskExcStr e))) := by
  constructor
  · intro j h; subst h; rfl
  · intro e h; subst h; rfl

/-- Claim C8, witness: the amended theorem applied to the decoded body `5`. -/
theorem claim_C8_witness :
    test_endpoint_post (.ok (.num ⟨5, 0⟩)) ⟨0, 0⟩ =
      (200, testOkBody (.num ⟨5, 0⟩) ⟨0, 0⟩) :=
  (claim_C8_amended (.ok (.num ⟨5, 0⟩)) ⟨0, 0⟩).1 (.num ⟨5, 0⟩) rfl

/-- Claim C9: the Formatter is deterministic — it is modelled as a pure
function of the payload and the clock reading, so identical payloads and
identical clock readings give byte-identical messages; having no side
effects is expressed by this purely functional type. -/
theorem claim_C9 (d1 d2 : Json) (t1 t2 : PyNum) (hd : d1 = d2) (ht : t1 = t2) :
    format_signal d1 t1 = format_signal d2 t2 := by
  rw [hd, ht]

/-- Claim C9, witness: the theorem applied to the concrete payload
`okPayload1` at a fixed clock reading. -/
theorem claim_C9_witness :
    format_signal (.obj okPayload1) ⟨1700000000, 0⟩ =
      format_signal (.obj okPayload1) ⟨1700000000, 0⟩ :=
  claim_C9 (.obj okPayload1) (.obj okPayload1) ⟨1700000000, 0⟩ ⟨1700000000, 0⟩
    rfl rfl

/-- Claim C10: a required field present but bound to JSON null is counted
as missing — the payload is rejected with the 400 missing-fields message,
and the null field is in the rendered missing list. -/
theorem claim_C10 (kvs : List (String × Json)) (now : PyNum) (net : NetOutcome)
    (f0 : String) (hf : f0 ∈ requiredFields)
    (hnull : List.lookup f0 kvs = some .null)
    (_hall : ∀ f ∈ requiredFields, (List.lookup f kvs).isSome = true) :
    receive_signal (.ok (.obj kvs)) now net =
      ((400, errResp ("Missing required fields: " ++
        pyListRepr (missingFields kvs))), []) ∧
    f0 ∈ missingFields kvs := by
  have hm0 : isMissing kvs f0 = true := by simp [isMissing, hnull]
  have hmem : f0 ∈ missingFields kvs := List.mem_filter.mpr ⟨hf, hm0⟩
  have hne : kvs ≠ [] := lookup_ne_nil f0 kvs _ hnull
  have hmiss : missingFields kvs ≠ [] := by
    intro he
    rw [he] at hmem
    simp at hmem
  exact ⟨receive_missing_case kvs now net hne hmiss, hmem⟩

/-- Claim C10, witness: the theorem applied to a payload with all six keys
present and `sl_price` bound to null. -/
theorem claim_C10_witness :
    List.lookup "sl_price" nullFieldPayload = some Json.null ∧
    receive_signal (.ok (.obj nullFieldPayload)) ⟨0, 0⟩ .timeout =
      ((400, errResp ("Missing required fields: " ++
        pyListRepr (missingFields nullFieldPayload))), []) ∧
    "sl_price" ∈ missingFields nullFieldPayload := by
  have h := claim_C10 nullFieldPayload ⟨0, 0⟩ .timeout "sl_price" (by decide) rfl
    (by intro f hf; fin_cases hf <;> rfl)
  exact ⟨rfl, h.1, h.2⟩
